import Mathlib

/-!
Verification of the Capital Budgeting Calculator's metrics engine
(`capital_budgeting_logic.py`) against its natural-language specification.

The numeric core is embedded shallowly over `ℚ`: every Python float
computation is modelled as exact rational arithmetic, every Python function
of the module becomes a computable Lean function of the same name, and the
dynamically-typed result dictionary becomes an association list from the
metric-name strings to a tagged value (`MetricValue`).  The calls into the
external `numpy_financial` library (`npf.irr`, `npf.mirr`) are not code of
this repository; their outcomes are passed in as an explicit parameter
(`ExtOutcome`), exactly covering the three cases the wrapping code in
`calculate_all_metrics` distinguishes (finite value, nan/inf, exception).
-/

namespace CapitalBudgeting

/-- Helper for `npfNpv`: the discounted sum `Σ values[j] / (1+rate)^(i+j)`,
accumulating the exponent `i` that numpy applies to each position. -/
def npvAux (rate : ℚ) : ℕ → List ℚ → ℚ
  | _, [] => 0
  | i, v :: rest => v / (1 + rate) ^ i + npvAux rate (i + 1) rest

/-- The external `numpy_financial.npv(rate, values)` function as the source
calls it: `(values / (1 + rate) ** np.arange(0, len(values))).sum()`, i.e.
`Σ values[i] / (1+rate)^i` with the FIRST element of `values` undiscounted
(numpy treats `values[0]` as the period-0 flow). -/
def npfNpv (rate : ℚ) (values : List ℚ) : ℚ :=
  npvAux rate 0 values

/-- Python's `round(x, 2)`: round to two decimals, ties to the even last
digit (banker's rounding, as Python's built-in `round` does on an exact
half). -/
def round2 (q : ℚ) : ℚ :=
  let x := q * 100
  let f : ℤ := ⌊x⌋
  let frac := x - (f : ℚ)
  if frac < 1 / 2 then (f : ℚ) / 100
  else if 1 / 2 < frac then ((f : ℚ) + 1) / 100
  else if f % 2 = 0 then (f : ℚ) / 100
  else ((f : ℚ) + 1) / 100

/-- A value of the Python result dictionary `Dict[str, Union[float, str]]`:
either a number or one of the textual "not applicable" sentinels. -/
inductive MetricValue where
  | num : ℚ → MetricValue
  | na : String → MetricValue
deriving DecidableEq

/-- Outcome of a call into the external `numpy_financial` root-finder
(`npf.irr` / `npf.mirr`), which is library code outside this repository.
The wrapper in `calculate_all_metrics` distinguishes exactly three cases:
a finite float was returned, nan/inf was returned, or a
`ValueError`/`RuntimeError` was raised. -/
inductive ExtOutcome where
  | val : ℚ → ExtOutcome
  | nonfinite : ExtOutcome
  | raised : ExtOutcome
deriving DecidableEq

/-- The sentinel-wrapping applied identically to the IRR and MIRR results
(source lines 50-58 and 61-68): a finite value is stored as a number,
nan/inf becomes "N/A (No Valid Solution)", an exception becomes
"N/A (Calculation Error)". -/
def extMetric : ExtOutcome → MetricValue
  | ExtOutcome.val q => MetricValue.num q
  | ExtOutcome.nonfinite => MetricValue.na "N/A (No Valid Solution)"
  | ExtOutcome.raised => MetricValue.na "N/A (Calculation Error)"

/-- The loop of `_calculate_payback` (source lines 115-131).  `year` is the
1-based period of the head of the remaining list, `cum` the cumulative cash
flow before it.  When the cumulative reaches the investment the code
interpolates a fractional year, unless this period's flow is `<= 0`, in
which case it `continue`s. `none` models falling off the loop ("Never"). -/
def paybackGo (investment : ℚ) (year : ℕ) (cum : ℚ) : List ℚ → Option ℚ
  | [] => none
  | cash_flow :: rest =>
    let cumulative := cum + cash_flow
    if investment ≤ cumulative then
      if cash_flow ≤ 0 then paybackGo investment (year + 1) cumulative rest
      else some (round2 ((year : ℚ) - 1 + (investment - (cumulative - cash_flow)) / cash_flow))
    else paybackGo investment (year + 1) cumulative rest

/-- `_calculate_payback(investment, cash_flows)`: the simple payback period,
a number when the loop returns, "Never" when it falls through. -/
def _calculate_payback (investment : ℚ) (cash_flows : List ℚ) : MetricValue :=
  match paybackGo investment 1 0 cash_flows with
  | some p => MetricValue.num p
  | none => MetricValue.na "Never"

/-- The loop of `_calculate_discounted_payback` (source lines 136-152):
identical to `paybackGo` except that each period's flow is first discounted
by `(1 + rate) ^ year`. -/
def dpaybackGo (rate investment : ℚ) (year : ℕ) (cum : ℚ) : List ℚ → Option ℚ
  | [] => none
  | cash_flow :: rest =>
    let discounted_cf := cash_flow / (1 + rate) ^ year
    let cumulative := cum + discounted_cf
    if investment ≤ cumulative then
      if discounted_cf ≤ 0 then dpaybackGo rate investment (year + 1) cumulative rest
      else some (round2 ((year : ℚ) - 1 + (investment - (cumulative - discounted_cf)) / discounted_cf))
    else dpaybackGo rate investment (year + 1) cumulative rest

/-- `_calculate_discounted_payback(rate, investment, cash_flows)`. -/
def _calculate_discounted_payback (rate investment : ℚ) (cash_flows : List ℚ) : MetricValue :=
  match dpaybackGo rate investment 1 0 cash_flows with
  | some p => MetricValue.num p
  | none => MetricValue.na "Never"

/-- The body of `calculate_all_metrics` after validation (source lines
35-110): the ten-entry result dictionary in insertion order.  The two
`if 1 + rate = 0` / `if pv_annuity_factor = 0` guards in the EAA entry
model the `except (ZeroDivisionError, ValueError)` branch of the source:
those are the only two divisions the `try` block performs.  The IRR and
MIRR entries wrap the externally supplied outcomes. -/
def metricsList (rate initial_investment_positive : ℚ) (future_cash_flows : List ℚ)
    (irrOutcome mirrOutcome : ExtOutcome) : List (String × MetricValue) :=
  let initial_investment_negative := -initial_investment_positive
  let pv_future_flows := npfNpv rate future_cash_flows
  let npv := pv_future_flows + initial_investment_negative
  let n_years := future_cash_flows.length
  let pi : MetricValue :=
    if initial_investment_positive = 0 then MetricValue.na "N/A (No Investment)"
    else MetricValue.num (pv_future_flows / initial_investment_positive)
  let eaa : MetricValue :=
    if npv ≠ 0 ∧ 0 < n_years then
      if 1 + rate = 0 then MetricValue.na "N/A (Calculation Error)"
      else
        let pv_annuity_factor : ℚ :=
          if rate ≠ 0 then (1 - (1 + rate) ^ (-(n_years : ℤ))) / rate else (n_years : ℚ)
        if pv_annuity_factor = 0 then MetricValue.na "N/A (Calculation Error)"
        else MetricValue.num (npv / pv_annuity_factor)
    else MetricValue.na "N/A"
  let bcr : MetricValue :=
    if 0 < initial_investment_positive then
      MetricValue.num (pv_future_flows / initial_investment_positive)
    else MetricValue.na "N/A"
  [ ("npv", MetricValue.num npv),
    ("irr", extMetric irrOutcome),
    ("mirr", extMetric mirrOutcome),
    ("payback_period", _calculate_payback initial_investment_positive future_cash_flows),
    ("discounted_payback_period",
      _calculate_discounted_payback rate initial_investment_positive future_cash_flows),
    ("profitability_index", pi),
    ("eaa", eaa),
    ("benefit_cost_ratio", bcr),
    ("total_cash_flow", MetricValue.num (future_cash_flows.sum - initial_investment_positive)),
    ("avg_annual_cash_flow",
      MetricValue.num (future_cash_flows.sum / (future_cash_flows.length : ℚ))) ]

/-- `calculate_all_metrics(rate, initial_investment_positive,
future_cash_flows, ...)` (source lines 6-110): the three validation checks
in source order, each raising `ValueError` with its message (modelled as
`Except.error`), then the result dictionary.  The `reinvestment_rate` and
`finance_rate` parameters of the source are consumed only by the external
`npf.mirr` call and are therefore absorbed into `mirrOutcome`. -/
def calculate_all_metrics (rate initial_investment_positive : ℚ)
    (future_cash_flows : List ℚ) (irrOutcome mirrOutcome : ExtOutcome) :
    Except String (List (String × MetricValue)) :=
  if future_cash_flows = [] then
    Except.error "No future cash flows provided."
  else if initial_investment_positive ≤ 0 then
    Except.error "Initial investment must be a positive number."
  else if rate ≤ -1 then
    Except.error "Discount rate cannot be -100% or less."
  else
    Except.ok (metricsList rate initial_investment_positive future_cash_flows
      irrOutcome mirrOutcome)

/-- The NPV formula exactly as the specification states it (spec §4.1 item 1
and §8): `Σ cash_flows[i] / (1+rate)^(i+1) − initial_investment`, every
future flow discounted by at least one period.  Stated for comparison with
the source's `npfNpv`-based value. -/
def specNpv (rate initial_investment : ℚ) (cash_flows : List ℚ) : ℚ :=
  npvAux rate 1 cash_flows - initial_investment

/-- Variant of `paybackGo` with the `cash_flow <= 0` skip branch removed:
used to state that the skip branch of the source is unreachable (claim
C10). -/
def paybackGoNS (investment : ℚ) (year : ℕ) (cum : ℚ) : List ℚ → Option ℚ
  | [] => none
  | cash_flow :: rest =>
    let cumulative := cum + cash_flow
    if investment ≤ cumulative then
      some (round2 ((year : ℚ) - 1 + (investment - (cumulative - cash_flow)) / cash_flow))
    else paybackGoNS investment (year + 1) cumulative rest

/-- Variant of `dpaybackGo` with the `discounted_cf <= 0` skip branch
removed (claim C10). -/
def dpaybackGoNS (rate investment : ℚ) (year : ℕ) (cum : ℚ) : List ℚ → Option ℚ
  | [] => none
  | cash_flow :: rest =>
    let discounted_cf := cash_flow / (1 + rate) ^ year
    let cumulative := cum + discounted_cf
    if investment ≤ cumulative then
      some (round2 ((year : ℚ) - 1 + (investment - (cumulative - discounted_cf)) / discounted_cf))
    else dpaybackGoNS rate investment (year + 1) cumulative rest

/-- The list of per-period discounted cash flows `cf / (1+rate)^year`
starting at period `year`: relates `dpaybackGo` to `paybackGo`. -/
def discountFrom (rate : ℚ) : ℕ → List ℚ → List ℚ
  | _, [] => []
  | year, cash_flow :: rest => cash_flow / (1 + rate) ^ year :: discountFrom rate (year + 1) rest

/-- `np.linspace(a, b, num_points)` as `calculate_npv_profile` uses it:
`num_points` evenly spaced values from `a` to `b` inclusive,
`a + i * (b - a) / (num_points - 1)` for `i = 0 .. num_points - 1` (for
`num_points = 1` numpy returns `[a]`, matched here by `x / 0 = 0`). -/
def linspace (a b : ℚ) (num_points : ℕ) : List ℚ :=
  (List.range num_points).map
    (fun (i : ℕ) => a + (i : ℚ) * (b - a) / ((num_points : ℚ) - 1))

/-- `calculate_npv_profile(initial_investment_positive, future_cash_flows,
rate_range, num_points)` (source lines 155-183): evaluates the same
`npf.npv`-based NPV at each rate of the linspace sweep. -/
def calculate_npv_profile (initial_investment_positive : ℚ) (future_cash_flows : List ℚ)
    (rate_range : ℚ × ℚ) (num_points : ℕ) : List ℚ × List ℚ :=
  let rates := linspace rate_range.1 rate_range.2 num_points
  let initial_investment_negative := -initial_investment_positive
  (rates, rates.map (fun rate => npfNpv rate future_cash_flows + initial_investment_negative))

/-- One `{low, base, high}` triple of the sensitivity result. -/
structure SensTriple where
  low : ℚ
  base : ℚ
  high : ℚ
deriving DecidableEq

/-- The result of `perform_sensitivity_analysis`: one NPV triple per varied
variable (the Python dict keys `discount_rate`, `cash_flows`,
`initial_investment`). -/
structure SensitivityResult where
  discount_rate : SensTriple
  cash_flows : SensTriple
  initial_investment : SensTriple
deriving DecidableEq

/-- `perform_sensitivity_analysis(initial_investment_positive,
future_cash_flows, base_rate, variation_percent)` (source lines 213-288):
for each of the three variables, NPV with that variable scaled by
`(1 - variation)`, `1`, `(1 + variation)`, the other two at base values.
Each NPV is `npf.npv(rate, flows) - investment`. -/
def perform_sensitivity_analysis (initial_investment_positive : ℚ)
    (future_cash_flows : List ℚ) (base_rate : ℚ) (variation_percent : ℚ) :
    SensitivityResult :=
  let variation := variation_percent / 100
  { discount_rate :=
      { low := npfNpv (base_rate * (1 - variation)) future_cash_flows - initial_investment_positive
        base := npfNpv base_rate future_cash_flows - initial_investment_positive
        high := npfNpv (base_rate * (1 + variation)) future_cash_flows - initial_investment_positive }
    cash_flows :=
      { low := npfNpv base_rate (future_cash_flows.map (fun cf => cf * (1 - variation))) -
          initial_investment_positive
        base := npfNpv base_rate future_cash_flows - initial_investment_positive
        high := npfNpv base_rate (future_cash_flows.map (fun cf => cf * (1 + variation))) -
          initial_investment_positive }
    initial_investment :=
      { low := npfNpv base_rate future_cash_flows - initial_investment_positive * (1 - variation)
        base := npfNpv base_rate future_cash_flows - initial_investment_positive
        high := npfNpv base_rate future_cash_flows - initial_investment_positive * (1 + variation) } }

/-- Accessor for one metric of a `calculate_all_metrics` result: `none` when
validation failed or the key is absent. -/
def metricOf (r : Except String (List (String × MetricValue))) (key : String) :
    Option MetricValue :=
  match r with
  | Except.ok res => List.lookup key res
  | Except.error _ => none

/-- Invariant analysis of the payback loop, entered with the cumulative cash
flow still strictly below the investment: either the loop falls through
("Never"), or there is a first crossing position `j` (all partial sums up
to `j` are below the investment, the one at `j+1` reaches it), the returned
value is the rounded linear interpolation inside that period, and the
unrounded interpolated value lies in `(year+j-1, year+j]`. -/
lemma paybackGo_crossing (I : ℚ) :
    ∀ (l : List ℚ) (year : ℕ) (cum : ℚ), cum < I →
      paybackGo I year cum l = none ∨
      ∃ j : ℕ, j < l.length ∧
        (∀ m, m ≤ j → cum + (l.take m).sum < I) ∧
        I ≤ cum + (l.take (j + 1)).sum ∧
        paybackGo I year cum l =
          some (round2 ((year : ℚ) + (j : ℚ) - 1 +
            (I - (cum + (l.take j).sum)) / ((l.take (j + 1)).sum - (l.take j).sum))) ∧
        (year : ℚ) + (j : ℚ) - 1 <
          (year : ℚ) + (j : ℚ) - 1 +
            (I - (cum + (l.take j).sum)) / ((l.take (j + 1)).sum - (l.take j).sum) ∧
        (year : ℚ) + (j : ℚ) - 1 +
            (I - (cum + (l.take j).sum)) / ((l.take (j + 1)).sum - (l.take j).sum) ≤
          (year : ℚ) + (j : ℚ) := by
  intro l
  induction l with
  | nil => intro year cum _; exact Or.inl rfl
  | cons cf rest ih =>
    intro year cum hcum
    by_cases hI : I ≤ cum + cf
    · right
      have hcf : 0 < cf := by linarith
      have htake0 : (((cf :: rest).take 0).sum : ℚ) = 0 := rfl
      have htake1 : (((cf :: rest).take 1).sum : ℚ) = cf := by simp
      refine ⟨0, by simp, ?_, ?_, ?_, ?_, ?_⟩
      · intro m hm
        have hm0 : m = 0 := Nat.le_zero.mp hm
        subst hm0
        simpa [htake0] using hcum
      · simpa [htake1] using hI
      · simp only [paybackGo]
        rw [if_pos hI, if_neg (not_le.mpr hcf)]
        rw [htake0, htake1]
        congr 2
        push_cast
        ring
      · rw [htake0, htake1]
        have hpos : 0 < (I - (cum + 0)) / (cf - 0) := div_pos (by linarith) (by linarith)
        linarith
      · rw [htake0, htake1]
        have hle : (I - (cum + 0)) / (cf - 0) ≤ 1 := by
          rw [div_le_one (by linarith : (0 : ℚ) < cf - 0)]
          linarith
        linarith
    · have hcum2 : cum + cf < I := not_le.mp hI
      have htake : ∀ m : ℕ, (((cf :: rest).take (m + 1)).sum : ℚ) = cf + (rest.take m).sum := by
        intro m; simp
      rcases ih (year + 1) (cum + cf) hcum2 with hnone | ⟨j, hj, hmin, hcross, heq, hlb, hub⟩
      · left
        simp only [paybackGo]
        rw [if_neg hI]
        exact hnone
      · right
        refine ⟨j + 1, by simpa using Nat.succ_lt_succ hj, ?_, ?_, ?_, ?_, ?_⟩
        · intro m hm
          cases m with
          | zero => simpa using hcum
          | succ m' =>
            have hm' : m' ≤ j := Nat.succ_le_succ_iff.mp hm
            have h := hmin m' hm'
            rw [htake m']
            linarith
        · rw [htake (j + 1)]
          linarith [hcross]
        · simp only [paybackGo]
          rw [if_neg hI, heq]
          rw [htake j, htake (j + 1)]
          congr 2
          have hfrac : (I - ((cum + cf) + (rest.take j).sum)) /
              ((rest.take (j + 1)).sum - (rest.take j).sum) =
              (I - (cum + (cf + (rest.take j).sum))) /
              ((cf + (rest.take (j + 1)).sum) - (cf + (rest.take j).sum)) := by
            ring_nf
          rw [hfrac]
          push_cast
          ring
        · rw [htake j, htake (j + 1)]
          have hfrac : (I - (cum + (cf + (rest.take j).sum))) /
              ((cf + (rest.take (j + 1)).sum) - (cf + (rest.take j).sum)) =
              (I - ((cum + cf) + (rest.take j).sum)) /
              ((rest.take (j + 1)).sum - (rest.take j).sum) := by
            ring_nf
          rw [hfrac]
          push_cast
          push_cast at hlb
          linarith
        · rw [htake j, htake (j + 1)]
          have hfrac : (I - (cum + (cf + (rest.take j).sum))) /
              ((cf + (rest.take (j + 1)).sum) - (cf + (rest.take j).sum)) =
              (I - ((cum + cf) + (rest.take j).sum)) /
              ((rest.take (j + 1)).sum - (rest.take j).sum) := by
            ring_nf
          rw [hfrac]
          push_cast
          push_cast at hub
          linarith

/-- As long as the cumulative cash flow is below the investment on entry,
the `cash_flow <= 0` skip branch of `paybackGo` can never fire: the first
crossing period necessarily has a strictly positive cash flow, so the loop
computes the same result as the variant without the branch. -/
lemma paybackGo_skip_unreachable (I : ℚ) :
    ∀ (l : List ℚ) (year : ℕ) (cum : ℚ), cum < I →
      paybackGo I year cum l = paybackGoNS I year cum l := by
  intro l
  induction l with
  | nil => intro _ _ _; rfl
  | cons cf rest ih =>
    intro year cum hcum
    simp only [paybackGo, paybackGoNS]
    by_cases hI : I ≤ cum + cf
    · rw [if_pos hI, if_pos hI, if_neg (not_le.mpr (by linarith : (0 : ℚ) < cf))]
    · rw [if_neg hI, if_neg hI]
      exact ih _ _ (not_le.mp hI)

/-- The discounted-payback loop equals the plain payback loop run on the
per-period discounted cash flows. -/
lemma dpaybackGo_eq_go (rate I : ℚ) :
    ∀ (l : List ℚ) (year : ℕ) (cum : ℚ),
      dpaybackGo rate I year cum l = paybackGo I year cum (discountFrom rate year l) := by
  intro l
  induction l with
  | nil => intro _ _; rfl
  | cons cf rest ih =>
    intro year cum
    simp only [dpaybackGo, paybackGo, discountFrom]
    by_cases hI : I ≤ cum + cf / (1 + rate) ^ year
    · rw [if_pos hI, if_pos hI]
      by_cases hd : cf / (1 + rate) ^ year ≤ 0
      · rw [if_pos hd, if_pos hd]
        exact ih _ _
      · rw [if_neg hd, if_neg hd]
    · rw [if_neg hI, if_neg hI]
      exact ih _ _

/-- Discounting preserves the length of the cash-flow list. -/
lemma discountFrom_length (rate : ℚ) :
    ∀ (l : List ℚ) (year : ℕ), (discountFrom rate year l).length = l.length := by
  intro l
  induction l with
  | nil => intro _; rfl
  | cons cf rest ih => intro year; simpa [discountFrom] using ih (year + 1)

/-- Same skip-branch unreachability for the discounted-payback loop. -/
lemma dpaybackGo_skip_unreachable (rate I : ℚ) :
    ∀ (l : List ℚ) (year : ℕ) (cum : ℚ), cum < I →
      dpaybackGo rate I year cum l = dpaybackGoNS rate I year cum l := by
  intro l
  induction l with
  | nil => intro _ _ _; rfl
  | cons cf rest ih =>
    intro year cum hcum
    simp only [dpaybackGo, dpaybackGoNS]
    by_cases hI : I ≤ cum + cf / (1 + rate) ^ year
    · rw [if_pos hI, if_pos hI,
        if_neg (not_le.mpr (by linarith : (0 : ℚ) < cf / (1 + rate) ^ year))]
    · rw [if_neg hI, if_neg hI]
      exact ih _ _ (not_le.mp hI)

/-- Either payback helper returns a number or the sentinel "Never". -/
lemma payback_num_or_never (I : ℚ) (cfs : List ℚ) :
    (∃ q, _calculate_payback I cfs = MetricValue.num q) ∨
      _calculate_payback I cfs = MetricValue.na "Never" := by
  unfold _calculate_payback
  cases paybackGo I 1 0 cfs <;> simp

/-- Either discounted payback returns a number or the sentinel "Never". -/
lemma dpayback_num_or_never (rate I : ℚ) (cfs : List ℚ) :
    (∃ q, _calculate_discounted_payback rate I cfs = MetricValue.num q) ∨
      _calculate_discounted_payback rate I cfs = MetricValue.na "Never" := by
  unfold _calculate_discounted_payback
  cases dpaybackGo rate I 1 0 cfs <;> simp

/-- On inputs passing all three validation checks, `calculate_all_metrics`
returns the result list built by `metricsList`. -/
lemma calc_ok (rate I : ℚ) (cfs : List ℚ) (o m : ExtOutcome)
    (h1 : cfs ≠ []) (h2 : 0 < I) (h3 : -1 < rate) :
    calculate_all_metrics rate I cfs o m = Except.ok (metricsList rate I cfs o m) := by
  unfold calculate_all_metrics
  rw [if_neg h1, if_neg (not_le.mpr h2), if_neg (not_le.mpr h3)]

/-- C4: `calculate_all_metrics` fails with a validation error (returning no
result mapping at all) exactly when the cash-flow list is empty, the
investment is non-positive, or the rate is at most -1; every input meeting
all three preconditions yields a result mapping and no error. -/
theorem calculate_all_metrics_validation (rate I : ℚ) (cfs : List ℚ)
    (o m : ExtOutcome) :
    ((∃ res, calculate_all_metrics rate I cfs o m = Except.ok res) ↔
      cfs ≠ [] ∧ 0 < I ∧ -1 < rate) ∧
    ((∃ msg, calculate_all_metrics rate I cfs o m = Except.error msg) ↔
      cfs = [] ∨ I ≤ 0 ∨ rate ≤ -1) := by
  unfold calculate_all_metrics
  by_cases h1 : cfs = [] <;> by_cases h2 : I ≤ 0 <;> by_cases h3 : rate ≤ -1 <;>
    simp [h1, h2, h3, not_le] <;>
    exact ⟨not_le.mp h2, not_le.mp h3⟩

/-- C5: for every valid input the `profitability_index` and
`benefit_cost_ratio` entries are the same number, the present value of the
future flows (as the source computes it, via `npf.npv`) divided by the
initial investment. -/
theorem profitability_index_eq_bcr (rate I : ℚ) (cfs : List ℚ)
    (o m : ExtOutcome) (h1 : cfs ≠ []) (h2 : 0 < I) (h3 : -1 < rate) :
    metricOf (calculate_all_metrics rate I cfs o m) "profitability_index" =
      some (MetricValue.num (npfNpv rate cfs / I)) ∧
    metricOf (calculate_all_metrics rate I cfs o m) "benefit_cost_ratio" =
      some (MetricValue.num (npfNpv rate cfs / I)) := by
  rw [calc_ok rate I cfs o m h1 h2 h3]
  simp [metricOf, metricsList, List.lookup, h2, h2.ne']

/-- Witness for C5 at rate 1/10, investment 100, cash flows [50, 60]. -/
theorem profitability_index_eq_bcr_witness :
    metricOf (calculate_all_metrics (1 / 10) 100 [50, 60] ExtOutcome.raised
        ExtOutcome.raised) "profitability_index" =
      some (MetricValue.num (npfNpv (1 / 10) [50, 60] / 100)) ∧
    metricOf (calculate_all_metrics (1 / 10) 100 [50, 60] ExtOutcome.raised
        ExtOutcome.raised) "benefit_cost_ratio" =
      some (MetricValue.num (npfNpv (1 / 10) [50, 60] / 100)) :=
  profitability_index_eq_bcr (1 / 10) 100 [50, 60] ExtOutcome.raised ExtOutcome.raised
    (by simp) (by norm_num) (by norm_num)

/-- C1 (the code, not the claim, is wrong here): the source computes the
`npv` entry as `npf.npv(rate, future_cash_flows) - investment`, and
`numpy_financial.npv` treats `values[0]` as the PERIOD-0 flow, so the first
future cash flow is not discounted at all: at rate 1, investment 1, single
cash flow [2], the code returns npv = 2/(1+1)^0 - 1 = 1 while the spec's
formula `Σ cash_flows[i]/(1+rate)^(i+1) - I` gives 2/(1+1)^1 - 1 = 0.  The
spec formula is the standard one, and it is the convention the module
itself uses everywhere else (`_calculate_discounted_payback` and
`calculate_cumulative_cash_flows` both discount the year-1 flow by one full
period). -/
theorem npv_entry_first_flow_undiscounted :
    metricOf (calculate_all_metrics 1 1 [2] ExtOutcome.raised ExtOutcome.raised)
        "npv" = some (MetricValue.num 1) ∧
    specNpv 1 1 [2] = 0 ∧ (1 : ℚ) ≠ 0 := by
  refine ⟨?_, by norm_num [specNpv, npvAux], by norm_num⟩
  rw [calc_ok 1 1 [2] ExtOutcome.raised ExtOutcome.raised (by simp)
    (by norm_num) (by norm_num)]
  norm_num [metricOf, metricsList, List.lookup, npfNpv, npvAux]

/-- C2 counterexample: at rate 0.10, investment 100000, cash flows
[25000, 30000, 35000, 40000, 45000] the `npv` entry is
614725000/14641 ≈ 41986.55, which exceeds the claimed ≈ 14191 by more than
27795, so "NPV approximately 14,191" is false for the code. -/
theorem example_npv_not_14191 :
    metricOf (calculate_all_metrics (1 / 10) 100000 [25000, 30000, 35000, 40000, 45000]
        ExtOutcome.raised ExtOutcome.raised) "npv" =
      some (MetricValue.num (614725000 / 14641)) ∧
    (14191 : ℚ) + 27795 < 614725000 / 14641 := by
  refine ⟨?_, by norm_num⟩
  rw [calc_ok (1 / 10) 100000 [25000, 30000, 35000, 40000, 45000]
    ExtOutcome.raised ExtOutcome.raised (by simp) (by norm_num) (by norm_num)]
  norm_num [metricOf, metricsList, List.lookup, npfNpv, npvAux]

/-- C3 counterexample: for investment 10 and cash flows [10] the payback
period returned is exactly 1.0, and the cumulative cash flow after
`floor(1.0) = 1` periods is 10, which is NOT strictly less than the
investment 10: the claimed strict inequality at `floor(p)` fails whenever
the interpolated payback lands exactly on a period boundary. -/
theorem payback_floor_property_fails :
    _calculate_payback 10 [10] = MetricValue.num 1 ∧
    Int.toNat ⌊(1 : ℚ)⌋ = 1 ∧
    ¬ ((List.take (Int.toNat ⌊(1 : ℚ)⌋) [(10 : ℚ)]).sum < 10) := by
  refine ⟨by norm_num [_calculate_payback, paybackGo, round2], by norm_num, ?_⟩
  norm_num

/-- C3 amended: when `_calculate_payback` returns a finite value `p`, there
is a first crossing period `k` (every cumulative cash flow before `k` is
strictly below the investment and the one at `k` reaches it), and `p` is
the linear interpolation inside period `k`, rounded to two decimals, whose
unrounded value lies in `(k-1, k]`.  The original claim's strict inequality
at `floor(p)` fails when the interpolated value lands exactly on a period
boundary (see the counterexample) or when rounding moves `p` across one. -/
theorem payback_first_crossing (I : ℚ) (cfs : List ℚ) (p : ℚ) (hI : 0 < I)
    (hp : _calculate_payback I cfs = MetricValue.num p) :
    ∃ (k : ℕ) (p0 : ℚ),
      1 ≤ k ∧ k ≤ cfs.length ∧
      (∀ m, m < k → (cfs.take m).sum < I) ∧
      I ≤ (cfs.take k).sum ∧
      p0 = (k : ℚ) - 1 +
        (I - (cfs.take (k - 1)).sum) / ((cfs.take k).sum - (cfs.take (k - 1)).sum) ∧
      p = round2 p0 ∧ (k : ℚ) - 1 < p0 ∧ p0 ≤ (k : ℚ) := by
  rcases paybackGo_crossing I cfs 1 0 hI with hnone | ⟨j, hj, hmin, hcross, heq, hlb, hub⟩
  · unfold _calculate_payback at hp
    rw [hnone] at hp
    simp at hp
  · unfold _calculate_payback at hp
    rw [heq] at hp
    have hpq : p = round2 ((1 : ℚ) + (j : ℚ) - 1 +
        (I - (0 + (cfs.take j).sum)) /
          ((cfs.take (j + 1)).sum - (cfs.take j).sum)) := by
      simpa using hp.symm
    refine ⟨j + 1, (1 : ℚ) + (j : ℚ) - 1 +
        (I - (0 + (cfs.take j).sum)) /
          ((cfs.take (j + 1)).sum - (cfs.take j).sum),
      by omega, by omega, ?_, ?_, ?_, hpq, ?_, ?_⟩
    · intro m hm
      have := hmin m (by omega)
      simpa using this
    · simpa using hcross
    · have hk1 : j + 1 - 1 = j := by omega
      rw [hk1]
      push_cast
      ring
    · push_cast
      push_cast at hlb
      linarith
    · push_cast
      push_cast at hub
      linarith

/-- Witness for C3's amended theorem at investment 3, cash flows [2, 2]:
payback 3/2, first crossing in period 2. -/
theorem payback_first_crossing_witness :
    ∃ (k : ℕ) (p0 : ℚ),
      1 ≤ k ∧ k ≤ ([2, 2] : List ℚ).length ∧
      (∀ m, m < k → (([2, 2] : List ℚ).take m).sum < 3) ∧
      (3 : ℚ) ≤ (([2, 2] : List ℚ).take k).sum ∧
      p0 = (k : ℚ) - 1 +
        ((3 : ℚ) - (([2, 2] : List ℚ).take (k - 1)).sum) /
          ((([2, 2] : List ℚ).take k).sum - (([2, 2] : List ℚ).take (k - 1)).sum) ∧
      (3 / 2 : ℚ) = round2 p0 ∧ (k : ℚ) - 1 < p0 ∧ p0 ≤ (k : ℚ) :=
  payback_first_crossing 3 [2, 2] (3 / 2) (by norm_num)
    (by norm_num [_calculate_payback, paybackGo, round2])

/-- C10: with a positive investment the first period whose cumulative
(discounted) cash flow reaches the investment necessarily has a strictly
positive (discounted) flow, so both payback loops compute the same result
as their variants with the `<= 0` skip branch removed, and every finite
payback value is the rounding of an unrounded interpolant lying in
`(k-1, k] ⊆ (0, n]` for the crossing period `k`. -/
theorem payback_skip_branch_unreachable (rate I : ℚ) (cfs : List ℚ)
    (hI : 0 < I) (hrate : -1 < rate) :
    paybackGo I 1 0 cfs = paybackGoNS I 1 0 cfs ∧
    dpaybackGo rate I 1 0 cfs = dpaybackGoNS rate I 1 0 cfs ∧
    (∀ p, _calculate_payback I cfs = MetricValue.num p →
      ∃ (k : ℕ) (p0 : ℚ), 1 ≤ k ∧ k ≤ cfs.length ∧ p = round2 p0 ∧
        (k : ℚ) - 1 < p0 ∧ p0 ≤ (k : ℚ) ∧ 0 < p0) ∧
    (∀ p, _calculate_discounted_payback rate I cfs = MetricValue.num p →
      ∃ (k : ℕ) (p0 : ℚ), 1 ≤ k ∧ k ≤ cfs.length ∧ p = round2 p0 ∧
        (k : ℚ) - 1 < p0 ∧ p0 ≤ (k : ℚ) ∧ 0 < p0) := by
  refine ⟨paybackGo_skip_unreachable I cfs 1 0 hI,
    dpaybackGo_skip_unreachable rate I cfs 1 0 hI, ?_, ?_⟩
  · intro p hp
    rcases paybackGo_crossing I cfs 1 0 hI with hnone | ⟨j, hj, _, _, heq, hlb, hub⟩
    · unfold _calculate_payback at hp
      rw [hnone] at hp
      simp at hp
    · unfold _calculate_payback at hp
      rw [heq] at hp
      have hpq : p = round2 ((1 : ℚ) + (j : ℚ) - 1 +
          (I - (0 + (cfs.take j).sum)) /
            ((cfs.take (j + 1)).sum - (cfs.take j).sum)) := by
        simpa using hp.symm
      refine ⟨j + 1, _, by omega, by omega, hpq, ?_, ?_, ?_⟩
      · push_cast
        push_cast at hlb
        linarith
      · push_cast
        push_cast at hub
        linarith
      · have hj0 : (0 : ℚ) ≤ (j : ℚ) := Nat.cast_nonneg j
        push_cast at hlb
        linarith
  · intro p hp
    unfold _calculate_discounted_payback at hp
    rw [dpaybackGo_eq_go rate I cfs 1 0] at hp
    rcases paybackGo_crossing I (discountFrom rate 1 cfs) 1 0 hI with
      hnone | ⟨j, hj, _, _, heq, hlb, hub⟩
    · rw [hnone] at hp
      simp at hp
    · rw [heq] at hp
      have hjlen : j < cfs.length := by
        rw [← discountFrom_length rate cfs 1]
        exact hj
      have hpq : p = round2 ((1 : ℚ) + (j : ℚ) - 1 +
          (I - (0 + ((discountFrom rate 1 cfs).take j).sum)) /
            (((discountFrom rate 1 cfs).take (j + 1)).sum -
              ((discountFrom rate 1 cfs).take j).sum)) := by
        simpa using hp.symm
      refine ⟨j + 1, _, by omega, by omega, hpq, ?_, ?_, ?_⟩
      · push_cast
        push_cast at hlb
        linarith
      · push_cast
        push_cast at hub
        linarith
      · have hj0 : (0 : ℚ) ≤ (j : ℚ) := Nat.cast_nonneg j
        push_cast at hlb
        linarith

/-- Witness for C10 at rate 0, investment 3, cash flows [2, 2]. -/
theorem payback_skip_branch_unreachable_witness :
    paybackGo 3 1 0 [2, 2] = paybackGoNS 3 1 0 [2, 2] ∧
    dpaybackGo 0 3 1 0 [2, 2] = dpaybackGoNS 0 3 1 0 [2, 2] ∧
    (∀ p, _calculate_payback 3 [2, 2] = MetricValue.num p →
      ∃ (k : ℕ) (p0 : ℚ), 1 ≤ k ∧ k ≤ ([2, 2] : List ℚ).length ∧ p = round2 p0 ∧
        (k : ℚ) - 1 < p0 ∧ p0 ≤ (k : ℚ) ∧ 0 < p0) ∧
    (∀ p, _calculate_discounted_payback 0 3 [2, 2] = MetricValue.num p →
      ∃ (k : ℕ) (p0 : ℚ), 1 ≤ k ∧ k ≤ ([2, 2] : List ℚ).length ∧ p = round2 p0 ∧
        (k : ℚ) - 1 < p0 ∧ p0 ≤ (k : ℚ) ∧ 0 < p0) :=
  payback_skip_branch_unreachable 0 3 [2, 2] (by norm_num) (by norm_num)

/-- The full-cash-flow NPV of the worked example,
`Σ allFlows[i] / (1+r)^i` for `allFlows = [-100000] + flows`, written as an
explicit six-term sum. -/
lemma npvFull_expand (r : ℚ) :
    npfNpv r [-100000, 25000, 30000, 35000, 40000, 45000] =
      -100000 + (25000 / (1 + r) ^ 1 + (30000 / (1 + r) ^ 2 +
        (35000 / (1 + r) ^ 3 + (40000 / (1 + r) ^ 4 +
          (45000 / (1 + r) ^ 5 + 0))))) := by
  norm_num [npfNpv, npvAux]

/-- The example's full-flow NPV is antitone in the rate on `(-1, ∞)`: all
future flows are positive, so discounting harder can only lower it. -/
lemma npvFull_anti {a b : ℚ} (ha : -1 < a) (hab : a ≤ b) :
    npfNpv b [-100000, 25000, 30000, 35000, 40000, 45000] ≤
      npfNpv a [-100000, 25000, 30000, 35000, 40000, 45000] := by
  have ha0 : (0 : ℚ) < 1 + a := by linarith
  have hpow : ∀ i : ℕ, (1 + a) ^ i ≤ (1 + b) ^ i := fun i =>
    pow_le_pow_left ha0.le (by linarith) i
  have hterm : ∀ (c : ℚ) (i : ℕ), 0 ≤ c → c / (1 + b) ^ i ≤ c / (1 + a) ^ i := by
    intro c i hc
    have hinv : ((1 + b) ^ i)⁻¹ ≤ ((1 + a) ^ i)⁻¹ :=
      inv_le_inv_of_le (pow_pos ha0 i) (hpow i)
    calc c / (1 + b) ^ i = c * ((1 + b) ^ i)⁻¹ := div_eq_mul_inv _ _
      _ ≤ c * ((1 + a) ^ i)⁻¹ := mul_le_mul_of_nonneg_left hinv hc
      _ = c / (1 + a) ^ i := (div_eq_mul_inv _ _).symm
  rw [npvFull_expand a, npvFull_expand b]
  have h1 := hterm 25000 1 (by norm_num)
  have h2 := hterm 30000 2 (by norm_num)
  have h3 := hterm 35000 3 (by norm_num)
  have h4 := hterm 40000 4 (by norm_num)
  have h5 := hterm 45000 5 (by norm_num)
  linarith

/-- The example's full-flow NPV is still positive at 19%. -/
lemma npvFull_019_pos :
    0 < npfNpv (19 / 100) [-100000, 25000, 30000, 35000, 40000, 45000] := by
  norm_num [npfNpv, npvAux]

/-- The example's full-flow NPV is already negative at 20%. -/
lemma npvFull_02_neg :
    npfNpv (1 / 5) [-100000, 25000, 30000, 35000, 40000, 45000] < 0 := by
  norm_num [npfNpv, npvAux]

/-- C2 amended: at rate 0.10, investment 100000, cash flows
[25000, 30000, 35000, 40000, 45000] the code actually returns
npv = 614725000/14641 ≈ 41986.55 (positive, but not ≈ 14191), payback
13/4 = 3.25 (strictly between 3 and 4, as claimed), profitability index
2078825000/1464100000 ≈ 1.4199 (not ≈ 1.142), and every rate `r > -1`
solving the IRR equation `Σ allFlows[i]/(1+r)^i = 0` for the full flow
vector lies strictly between 19% and 20% (≈ 19.7%, not ≈ 15.8%). -/
theorem example_project_actual_metrics :
    metricOf (calculate_all_metrics (1 / 10) 100000 [25000, 30000, 35000, 40000, 45000]
        ExtOutcome.raised ExtOutcome.raised) "npv" =
      some (MetricValue.num (614725000 / 14641)) ∧
    (0 : ℚ) < 614725000 / 14641 ∧
    metricOf (calculate_all_metrics (1 / 10) 100000 [25000, 30000, 35000, 40000, 45000]
        ExtOutcome.raised ExtOutcome.raised) "payback_period" =
      some (MetricValue.num (13 / 4)) ∧
    (3 : ℚ) < 13 / 4 ∧ (13 / 4 : ℚ) < 4 ∧
    metricOf (calculate_all_metrics (1 / 10) 100000 [25000, 30000, 35000, 40000, 45000]
        ExtOutcome.raised ExtOutcome.raised) "profitability_index" =
      some (MetricValue.num (2078825000 / 1464100000)) ∧
    (∀ r : ℚ, -1 < r →
      npfNpv r [-100000, 25000, 30000, 35000, 40000, 45000] = 0 →
      19 / 100 < r ∧ r < 1 / 5) := by
  have hok := calc_ok (1 / 10) 100000 [25000, 30000, 35000, 40000, 45000]
    ExtOutcome.raised ExtOutcome.raised (by simp) (by norm_num) (by norm_num)
  refine ⟨?_, by norm_num, ?_, by norm_num, by norm_num, ?_, ?_⟩
  · rw [hok]
    simp [metricOf, metricsList, List.lookup]
    norm_num [npfNpv, npvAux]
  · rw [hok]
    simp [metricOf, metricsList, List.lookup]
    norm_num [_calculate_payback, paybackGo, round2]
  · rw [hok]
    simp [metricOf, metricsList, List.lookup]
    norm_num [npfNpv, npvAux]
  · intro r hr hroot
    constructor
    · by_contra h
      push_neg at h
      have hmono := npvFull_anti hr h
      rw [hroot] at hmono
      exact absurd (lt_of_lt_of_le npvFull_019_pos hmono) (lt_irrefl 0)
    · by_contra h
      push_neg at h
      have hmono := npvFull_anti (by norm_num : (-1 : ℚ) < 1 / 5) h
      rw [hroot] at hmono
      exact absurd (lt_of_le_of_lt hmono npvFull_02_neg) (lt_irrefl 0)

/-- At rate 0 the numpy NPV sum is just the plain sum of the values,
whatever exponent the accumulator starts at. -/
lemma npvAux_rate_zero : ∀ (l : List ℚ) (i : ℕ), npvAux 0 i l = l.sum := by
  intro l
  induction l with
  | nil => intro _; rfl
  | cons v rest ih => intro i; simp [npvAux, ih]

/-- Element `i` of the linspace sweep. -/
lemma linspace_getD (a b : ℚ) (n i : ℕ) (hi2 : i < n) :
    (linspace a b n).getD i 0 = a + (i : ℚ) * (b - a) / ((n : ℚ) - 1) := by
  unfold linspace
  rw [List.getD_eq_getElem _ _ (by simpa using hi2)]
  rw [List.getElem_map, List.getElem_range]

/-- `getD` of a mapped list at an in-range index. -/
lemma getD_map_npv (g : ℚ → ℚ) (l : List ℚ) (i : ℕ) (hi2 : i < l.length) :
    (l.map g).getD i 0 = g (l.getD i 0) := by
  rw [List.getD_eq_getElem _ _ (by simpa using hi2), List.getD_eq_getElem _ _ hi2]
  rw [List.getElem_map]

/-- C6: `calculate_npv_profile` returns `num_points` rates, evenly spaced
(equal consecutive steps) and including both endpoints of the range, with
one NPV per rate computed by the same `npf.npv`-based formula; when the
range starts at rate 0 (as the default `(0, 0.5)` does), the first NPV is
`sum(cash_flows) - initial_investment`. -/
theorem npv_profile_linspace (I rlo rhi : ℚ) (cfs : List ℚ) (n : ℕ) (hn : 2 ≤ n) :
    (calculate_npv_profile I cfs (rlo, rhi) n).1.length = n ∧
    (calculate_npv_profile I cfs (rlo, rhi) n).2.length = n ∧
    (calculate_npv_profile I cfs (rlo, rhi) n).1.getD 0 0 = rlo ∧
    (calculate_npv_profile I cfs (rlo, rhi) n).1.getD (n - 1) 0 = rhi ∧
    (∀ i, i + 1 < n →
      (calculate_npv_profile I cfs (rlo, rhi) n).1.getD (i + 1) 0 -
        (calculate_npv_profile I cfs (rlo, rhi) n).1.getD i 0 =
          (rhi - rlo) / ((n : ℚ) - 1)) ∧
    (∀ i, i < n →
      (calculate_npv_profile I cfs (rlo, rhi) n).2.getD i 0 =
        npfNpv ((calculate_npv_profile I cfs (rlo, rhi) n).1.getD i 0) cfs - I) ∧
    (rlo = 0 → (calculate_npv_profile I cfs (rlo, rhi) n).2.getD 0 0 = cfs.sum - I) := by
  have hfst : (calculate_npv_profile I cfs (rlo, rhi) n).1 = linspace rlo rhi n := rfl
  have hsnd : (calculate_npv_profile I cfs (rlo, rhi) n).2 =
      (linspace rlo rhi n).map (fun rate => npfNpv rate cfs + -I) := rfl
  have hlen : (linspace rlo rhi n).length = n := by
    unfold linspace
    rw [List.length_map, List.length_range]
  have h2q : (2 : ℚ) ≤ (n : ℚ) := by exact_mod_cast hn
  have hne : ((n : ℚ) - 1) ≠ 0 := by linarith
  refine ⟨?_, ?_, ?_, ?_, ?_, ?_, ?_⟩
  · rw [hfst]; exact hlen
  · rw [hsnd, List.length_map]; exact hlen
  · rw [hfst, linspace_getD rlo rhi n 0 (by omega)]; simp
  · rw [hfst, linspace_getD rlo rhi n (n - 1) (by omega)]
    rw [Nat.cast_sub (by omega : 1 ≤ n)]
    push_cast
    field_simp
  · intro i hi2
    rw [hfst, linspace_getD rlo rhi n (i + 1) (by omega), linspace_getD rlo rhi n i (by omega)]
    push_cast
    field_simp
    ring
  · intro i hi2
    rw [hsnd, hfst, getD_map_npv _ _ i (by rw [hlen]; exact hi2)]
    ring
  · intro h0
    rw [hsnd, getD_map_npv _ _ 0 (by rw [hlen]; omega),
      linspace_getD rlo rhi n 0 (by omega)]
    subst h0
    simp [npfNpv, npvAux_rate_zero, sub_eq_add_neg]

/-- Witness for C6 at investment 100, cash flows [50, 60], range (0, 1/2),
3 points. -/
theorem npv_profile_linspace_witness :
    (calculate_npv_profile 100 [50, 60] (0, 1 / 2) 3).1.length = 3 ∧
    (calculate_npv_profile 100 [50, 60] (0, 1 / 2) 3).2.length = 3 ∧
    (calculate_npv_profile 100 [50, 60] (0, 1 / 2) 3).1.getD 0 0 = 0 ∧
    (calculate_npv_profile 100 [50, 60] (0, 1 / 2) 3).1.getD (3 - 1) 0 = 1 / 2 ∧
    (∀ i, i + 1 < 3 →
      (calculate_npv_profile 100 [50, 60] (0, 1 / 2) 3).1.getD (i + 1) 0 -
        (calculate_npv_profile 100 [50, 60] (0, 1 / 2) 3).1.getD i 0 =
          (1 / 2 - 0) / ((3 : ℚ) - 1)) ∧
    (∀ i, i < 3 →
      (calculate_npv_profile 100 [50, 60] (0, 1 / 2) 3).2.getD i 0 =
        npfNpv ((calculate_npv_profile 100 [50, 60] (0, 1 / 2) 3).1.getD i 0)
          [50, 60] - 100) ∧
    ((0 : ℚ) = 0 →
      (calculate_npv_profile 100 [50, 60] (0, 1 / 2) 3).2.getD 0 0 =
        ([50, 60] : List ℚ).sum - 100) :=
  npv_profile_linspace 100 0 (1 / 2) [50, 60] 3 (by norm_num)

/-- C7: each of the three `base` entries of the sensitivity analysis equals
the `npv` entry of `calculate_all_metrics` at the same inputs, and the
low/high entries are the NPV with exactly one variable scaled by
`(1 - v)` or `(1 + v)`, `v = variation_percent / 100`, the other two held
at base values. -/
theorem sensitivity_matches_npv (rate I vp : ℚ) (cfs : List ℚ) (o m : ExtOutcome)
    (h1 : cfs ≠ []) (h2 : 0 < I) (h3 : -1 < rate) :
    metricOf (calculate_all_metrics rate I cfs o m) "npv" =
      some (MetricValue.num
        ((perform_sensitivity_analysis I cfs rate vp).discount_rate.base)) ∧
    (perform_sensitivity_analysis I cfs rate vp).cash_flows.base =
      (perform_sensitivity_analysis I cfs rate vp).discount_rate.base ∧
    (perform_sensitivity_analysis I cfs rate vp).initial_investment.base =
      (perform_sensitivity_analysis I cfs rate vp).discount_rate.base ∧
    (perform_sensitivity_analysis I cfs rate vp).discount_rate.low =
      npfNpv (rate * (1 - vp / 100)) cfs - I ∧
    (perform_sensitivity_analysis I cfs rate vp).discount_rate.high =
      npfNpv (rate * (1 + vp / 100)) cfs - I ∧
    (perform_sensitivity_analysis I cfs rate vp).cash_flows.low =
      npfNpv rate (cfs.map (fun cf => cf * (1 - vp / 100))) - I ∧
    (perform_sensitivity_analysis I cfs rate vp).cash_flows.high =
      npfNpv rate (cfs.map (fun cf => cf * (1 + vp / 100))) - I ∧
    (perform_sensitivity_analysis I cfs rate vp).initial_investment.low =
      npfNpv rate cfs - I * (1 - vp / 100) ∧
    (perform_sensitivity_analysis I cfs rate vp).initial_investment.high =
      npfNpv rate cfs - I * (1 + vp / 100) := by
  refine ⟨?_, rfl, rfl, rfl, rfl, rfl, rfl, rfl, rfl⟩
  rw [calc_ok rate I cfs o m h1 h2 h3]
  simp [metricOf, metricsList, List.lookup, perform_sensitivity_analysis, sub_eq_add_neg]

/-- Witness for C7 at rate 1/10, investment 100, cash flows [50, 60],
variation 20%. -/
theorem sensitivity_matches_npv_witness :
    metricOf (calculate_all_metrics (1 / 10) 100 [50, 60] ExtOutcome.raised
        ExtOutcome.raised) "npv" =
      some (MetricValue.num
        ((perform_sensitivity_analysis 100 [50, 60] (1 / 10) 20).discount_rate.base)) ∧
    (perform_sensitivity_analysis 100 [50, 60] (1 / 10) 20).cash_flows.base =
      (perform_sensitivity_analysis 100 [50, 60] (1 / 10) 20).discount_rate.base ∧
    (perform_sensitivity_analysis 100 [50, 60] (1 / 10) 20).initial_investment.base =
      (perform_sensitivity_analysis 100 [50, 60] (1 / 10) 20).discount_rate.base ∧
    (perform_sensitivity_analysis 100 [50, 60] (1 / 10) 20).discount_rate.low =
      npfNpv ((1 / 10) * (1 - 20 / 100)) [50, 60] - 100 ∧
    (perform_sensitivity_analysis 100 [50, 60] (1 / 10) 20).discount_rate.high =
      npfNpv ((1 / 10) * (1 + 20 / 100)) [50, 60] - 100 ∧
    (perform_sensitivity_analysis 100 [50, 60] (1 / 10) 20).cash_flows.low =
      npfNpv (1 / 10) (([50, 60] : List ℚ).map (fun cf => cf * (1 - 20 / 100))) - 100 ∧
    (perform_sensitivity_analysis 100 [50, 60] (1 / 10) 20).cash_flows.high =
      npfNpv (1 / 10) (([50, 60] : List ℚ).map (fun cf => cf * (1 + 20 / 100))) - 100 ∧
    (perform_sensitivity_analysis 100 [50, 60] (1 / 10) 20).initial_investment.low =
      npfNpv (1 / 10) [50, 60] - 100 * (1 - 20 / 100) ∧
    (perform_sensitivity_analysis 100 [50, 60] (1 / 10) 20).initial_investment.high =
      npfNpv (1 / 10) [50, 60] - 100 * (1 + 20 / 100) :=
  sensitivity_matches_npv (1 / 10) 100 20 [50, 60] ExtOutcome.raised ExtOutcome.raised
    (by simp) (by norm_num) (by norm_num)

/-- The present-value annuity factor `(1 - (1+rate)^-n) / rate` is nonzero
for every `rate > -1`, `rate ≠ 0` and `n > 0`: the EAA division can never
raise `ZeroDivisionError` on a validated input. -/
lemma annuity_factor_ne_zero (rate : ℚ) (n : ℕ) (h3 : -1 < rate) (hr : rate ≠ 0)
    (hn : 0 < n) : (1 - (1 + rate) ^ (-(n : ℤ))) / rate ≠ 0 := by
  have hx : (0 : ℚ) < 1 + rate := by linarith
  have hxn : (0 : ℚ) < (1 + rate) ^ n := pow_pos hx n
  have key : (1 + rate) ^ (-(n : ℤ)) ≠ 1 := by
    rw [zpow_neg, zpow_natCast]
    rcases lt_or_gt_of_ne hr with hneg | hpos
    · have hlt : (1 + rate) ^ n < 1 := pow_lt_one hx.le (by linarith) (by omega)
      exact (one_lt_inv hxn hlt).ne'
    · have hgt : 1 < (1 + rate) ^ n := one_lt_pow (by linarith) (by omega)
      exact (inv_lt_one hgt).ne
  rw [div_ne_zero_iff]
  exact ⟨fun hc => key (by linarith), hr⟩

/-- C8: for a valid input with `n` periods the `eaa` entry is
`npv / ((1 - (1+rate)^-n) / rate)` when `rate ≠ 0` and `npv ≠ 0`, is
`npv / n` when `rate = 0` and `npv ≠ 0`, and is the sentinel "N/A" exactly
when `npv = 0`. -/
theorem eaa_entry_value (rate I : ℚ) (cfs : List ℚ) (o m : ExtOutcome)
    (h1 : cfs ≠ []) (h2 : 0 < I) (h3 : -1 < rate) :
    (npfNpv rate cfs - I ≠ 0 → rate ≠ 0 →
      metricOf (calculate_all_metrics rate I cfs o m) "eaa" =
        some (MetricValue.num ((npfNpv rate cfs - I) /
          ((1 - (1 + rate) ^ (-(cfs.length : ℤ))) / rate)))) ∧
    (npfNpv rate cfs - I ≠ 0 → rate = 0 →
      metricOf (calculate_all_metrics rate I cfs o m) "eaa" =
        some (MetricValue.num ((npfNpv rate cfs - I) / (cfs.length : ℚ)))) ∧
    (metricOf (calculate_all_metrics rate I cfs o m) "eaa" =
      some (MetricValue.na "N/A") ↔ npfNpv rate cfs - I = 0) := by
  have hlen : 0 < cfs.length := List.length_pos.mpr h1
  have hlenq : ((cfs.length : ℚ)) ≠ 0 := by
    exact_mod_cast Nat.pos_iff_ne_zero.mp hlen
  have h1r : 1 + rate ≠ 0 := by linarith
  have hlook : metricOf (calculate_all_metrics rate I cfs o m) "eaa" =
      some (if npfNpv rate cfs + -I ≠ 0 ∧ 0 < cfs.length then
        if 1 + rate = 0 then MetricValue.na "N/A (Calculation Error)"
        else
          if (if rate ≠ 0 then (1 - (1 + rate) ^ (-(cfs.length : ℤ))) / rate
              else (cfs.length : ℚ)) = 0 then MetricValue.na "N/A (Calculation Error)"
          else MetricValue.num ((npfNpv rate cfs + -I) /
            (if rate ≠ 0 then (1 - (1 + rate) ^ (-(cfs.length : ℤ))) / rate
              else (cfs.length : ℚ)))
      else MetricValue.na "N/A") := by
    rw [calc_ok rate I cfs o m h1 h2 h3]
    rfl
  have hsub : npfNpv rate cfs + -I = npfNpv rate cfs - I := (sub_eq_add_neg _ _).symm
  refine ⟨?_, ?_, ?_⟩
  · intro hnpv hr
    rw [hlook, if_pos ⟨by rw [hsub]; exact hnpv, hlen⟩, if_neg h1r, if_pos hr,
      if_neg (annuity_factor_ne_zero rate cfs.length h3 hr hlen), hsub]
  · intro hnpv hr
    rw [hlook, if_pos ⟨by rw [hsub]; exact hnpv, hlen⟩, if_neg h1r,
      if_neg (show ¬(rate ≠ 0) by simp [hr]), if_neg hlenq, hsub]
  · constructor
    · intro hval
      by_contra hnpv
      rw [hsub] at hlook
      rw [hlook, if_pos ⟨hnpv, hlen⟩, if_neg h1r] at hval
      by_cases hr : rate ≠ 0
      · rw [if_pos hr, if_neg (annuity_factor_ne_zero rate cfs.length h3 hr hlen)] at hval
        simp at hval
      · rw [if_neg hr, if_neg hlenq] at hval
        simp at hval
    · intro hnpv
      rw [hlook, if_neg (by rw [hsub]; simp [hnpv])]

/-- Witness for C8 at rate 1/10, investment 100, cash flows [50, 60]. -/
theorem eaa_entry_value_witness :
    (npfNpv (1 / 10) [50, 60] - 100 ≠ 0 → (1 / 10 : ℚ) ≠ 0 →
      metricOf (calculate_all_metrics (1 / 10) 100 [50, 60] ExtOutcome.raised
          ExtOutcome.raised) "eaa" =
        some (MetricValue.num ((npfNpv (1 / 10) [50, 60] - 100) /
          ((1 - (1 + 1 / 10) ^ (-((([50, 60] : List ℚ).length : ℤ)))) / (1 / 10))))) ∧
    (npfNpv (1 / 10) [50, 60] - 100 ≠ 0 → (1 / 10 : ℚ) = 0 →
      metricOf (calculate_all_metrics (1 / 10) 100 [50, 60] ExtOutcome.raised
          ExtOutcome.raised) "eaa" =
        some (MetricValue.num ((npfNpv (1 / 10) [50, 60] - 100) /
          ((([50, 60] : List ℚ).length : ℚ))))) ∧
    (metricOf (calculate_all_metrics (1 / 10) 100 [50, 60] ExtOutcome.raised
        ExtOutcome.raised) "eaa" =
      some (MetricValue.na "N/A") ↔ npfNpv (1 / 10) [50, 60] - 100 = 0) :=
  eaa_entry_value (1 / 10) 100 [50, 60] ExtOutcome.raised ExtOutcome.raised
    (by simp) (by norm_num) (by norm_num)

/-- C9: for every valid input the result mapping has exactly the ten metric
keys in the source's insertion order, every value is a number or one of the
five fixed sentinel strings, the `irr` and `mirr` entries are determined by
the outcomes of the external root-finder calls alone, and changing those
outcomes (e.g. a convergence failure) leaves every other entry unchanged. -/
theorem result_shape_and_isolation (rate I : ℚ) (cfs : List ℚ)
    (o m o' m' : ExtOutcome) (h1 : cfs ≠ []) (h2 : 0 < I) (h3 : -1 < rate) :
    ∃ res res',
      calculate_all_metrics rate I cfs o m = Except.ok res ∧
      calculate_all_metrics rate I cfs o' m' = Except.ok res' ∧
      res.map Prod.fst = ["npv", "irr", "mirr", "payback_period",
        "discounted_payback_period", "profitability_index", "eaa",
        "benefit_cost_ratio", "total_cash_flow", "avg_annual_cash_flow"] ∧
      (∀ kv ∈ res, (∃ q, kv.2 = MetricValue.num q) ∨
        kv.2 = MetricValue.na "N/A" ∨
        kv.2 = MetricValue.na "N/A (No Valid Solution)" ∨
        kv.2 = MetricValue.na "N/A (Calculation Error)" ∨
        kv.2 = MetricValue.na "Never" ∨
        kv.2 = MetricValue.na "N/A (No Investment)") ∧
      List.lookup "irr" res = some (extMetric o) ∧
      List.lookup "mirr" res = some (extMetric m) ∧
      res.filter (fun kv => kv.1 != "irr" && kv.1 != "mirr") =
        res'.filter (fun kv => kv.1 != "irr" && kv.1 != "mirr") := by
  refine ⟨metricsList rate I cfs o m, metricsList rate I cfs o' m',
    calc_ok rate I cfs o m h1 h2 h3, calc_ok rate I cfs o' m' h1 h2 h3,
    rfl, ?_, ?_, ?_, rfl⟩
  · intro kv hkv
    simp only [metricsList, List.mem_cons, List.not_mem_nil, or_false] at hkv
    rcases hkv with rfl | rfl | rfl | rfl | rfl | rfl | rfl | rfl | rfl | rfl
    · exact Or.inl ⟨_, rfl⟩
    · cases o <;> simp [extMetric]
    · cases m <;> simp [extMetric]
    · rcases payback_num_or_never I cfs with ⟨q, hq⟩ | hq
      · exact Or.inl ⟨q, hq⟩
      · simp [hq]
    · rcases dpayback_num_or_never rate I cfs with ⟨q, hq⟩ | hq
      · exact Or.inl ⟨q, hq⟩
      · simp [hq]
    · split_ifs <;> simp
    · split_ifs <;> simp
    · split_ifs <;> simp
    · exact Or.inl ⟨_, rfl⟩
    · exact Or.inl ⟨_, rfl⟩
  · simp [metricsList, List.lookup]
  · simp [metricsList, List.lookup]

/-- Witness for C9 at rate 1/10, investment 100, cash flows [50, 60], with
the IRR call failing and the MIRR call returning nan on one side. -/
theorem result_shape_and_isolation_witness :
    ∃ res res',
      calculate_all_metrics (1 / 10) 100 [50, 60] ExtOutcome.raised
        ExtOutcome.nonfinite = Except.ok res ∧
      calculate_all_metrics (1 / 10) 100 [50, 60] (ExtOutcome.val (1 / 5))
        (ExtOutcome.val (1 / 4)) = Except.ok res' ∧
      res.map Prod.fst = ["npv", "irr", "mirr", "payback_period",
        "discounted_payback_period", "profitability_index", "eaa",
        "benefit_cost_ratio", "total_cash_flow", "avg_annual_cash_flow"] ∧
      (∀ kv ∈ res, (∃ q, kv.2 = MetricValue.num q) ∨
        kv.2 = MetricValue.na "N/A" ∨
        kv.2 = MetricValue.na "N/A (No Valid Solution)" ∨
        kv.2 = MetricValue.na "N/A (Calculation Error)" ∨
        kv.2 = MetricValue.na "Never" ∨
        kv.2 = MetricValue.na "N/A (No Investment)") ∧
      List.lookup "irr" res = some (extMetric ExtOutcome.raised) ∧
      List.lookup "mirr" res = some (extMetric ExtOutcome.nonfinite) ∧
      res.filter (fun kv => kv.1 != "irr" && kv.1 != "mirr") =
        res'.filter (fun kv => kv.1 != "irr" && kv.1 != "mirr") :=
  result_shape_and_isolation (1 / 10) 100 [50, 60] ExtOutcome.raised
    ExtOutcome.nonfinite (ExtOutcome.val (1 / 5)) (ExtOutcome.val (1 / 4))
    (by simp) (by norm_num) (by norm_num)

end CapitalBudgeting
